import Mathlib

/-!
Verification of the fraud-detection prediction pipeline
(`src/model_serving.py` and `src/utils.py`) against its specification.

Numeric values are modelled as rationals (`ℚ`); Python float literals such
as `0.3`, `1e-7`, `94813.8` are taken at their decimal value.  Fallible
external effects (the Prometheus drift gauge, the artifact loaders) are
modelled as `Except`-valued parameters.
-/

namespace FraudDetection

/-- The 30-field transaction record of the pydantic `TransactionData` model
(`model_serving.py` lines 71-102): elapsed time, 28 anonymized features,
and the amount. -/
structure TransactionData where
  Time : ℚ
  V1 : ℚ
  V2 : ℚ
  V3 : ℚ
  V4 : ℚ
  V5 : ℚ
  V6 : ℚ
  V7 : ℚ
  V8 : ℚ
  V9 : ℚ
  V10 : ℚ
  V11 : ℚ
  V12 : ℚ
  V13 : ℚ
  V14 : ℚ
  V15 : ℚ
  V16 : ℚ
  V17 : ℚ
  V18 : ℚ
  V19 : ℚ
  V20 : ℚ
  V21 : ℚ
  V22 : ℚ
  V23 : ℚ
  V24 : ℚ
  V25 : ℚ
  V26 : ℚ
  V27 : ℚ
  V28 : ℚ
  Amount : ℚ

/-- The risk-bucket determination of `predict` (`model_serving.py` lines
249-254): `if probability < 0.3: "Low" elif probability < 0.7: "Medium"
else: "High"`. -/
def risk_level_of (probability : ℚ) : String :=
  if probability < 0.3 then "Low"
  else if probability < 0.7 then "Medium"
  else "High"

/-- The drift epsilon hardcoded in `calculate_drift_score`
(`model_serving.py` line 140). -/
def eps : ℚ := 1e-7

/-- The fixed feature baseline (`model_serving.py` lines 65-69): name ↦
(mean, std); `Time`, `Amount`, then `V1 … V28` all at `(0, 1)`. -/
def FEATURE_BASELINE : List (String × ℚ × ℚ) :=
  [("Time", 94813.8, 47488.1), ("Amount", 88.34, 250.12)] ++
    (List.range 28).map (fun i => ("V" ++ toString (i + 1), 0, 1))

/-- The external metrics sink (the Prometheus gauge
`data_drift_gauge.labels(feature).set(z)`), modelled as a fallible call. -/
def Sink : Type := String → ℚ → Except Unit Unit

/-- A sink whose publications always succeed. -/
def pureSink : Sink := fun _ _ => .ok ()

/-- A sink whose publications always fail. -/
def failingSink : Sink := fun _ _ => .error ()

/-- The `for feature, value in features.items()` loop of
`calculate_drift_score` (`model_serving.py` lines 137-142): for each field
with a baseline entry, compute `z = abs((value - mean) / (std + eps))`,
append it to `drift_scores`, and publish it to the gauge; a failure of the
gauge propagates out of the loop. -/
def calculate_drift_score_loop (sink : Sink) :
    List (String × ℚ) → List ℚ → Except Unit (List ℚ)
  | [], drift_scores => .ok drift_scores
  | (feature, value) :: rest, drift_scores =>
    match FEATURE_BASELINE.lookup feature with
    | some baseline =>
      let z_score := |(value - baseline.1) / (baseline.2 + eps)|
      match sink feature z_score with
      | .ok _ => calculate_drift_score_loop sink rest (drift_scores ++ [z_score])
      | .error e => .error e
    | none => calculate_drift_score_loop sink rest drift_scores

/-- `calculate_drift_score` (`model_serving.py` lines 133-147): average the
per-field z-scores (`0.0` when none) and flag drift when the average
exceeds `3.0`. -/
def calculate_drift_score (sink : Sink) (features : List (String × ℚ)) :
    Except Unit (ℚ × Bool) :=
  match calculate_drift_score_loop sink features [] with
  | .error e => .error e
  | .ok drift_scores =>
    let avg_drift := if drift_scores.isEmpty then 0.0
      else drift_scores.sum / (drift_scores.length : ℚ)
    .ok (avg_drift, decide (avg_drift > 3.0))

/-- Spec-side per-field z-scores (§4.3): for each field present in both the
input and the baseline, `z = |value - baseline.mean| / (baseline.std + ε)`. -/
def specZScores (features : List (String × ℚ)) : List ℚ :=
  features.filterMap fun fv =>
    (FEATURE_BASELINE.lookup fv.1).map fun ms => |fv.2 - ms.1| / (ms.2 + eps)

/-- Spec-side aggregate drift score (§4.3): arithmetic mean of the
per-field z-scores, `0.0` when no field is shared with the baseline. -/
def specDrift (features : List (String × ℚ)) : ℚ :=
  if specZScores features = [] then 0
  else (specZScores features).sum / ((specZScores features).length : ℚ)

/-- The aggregate drift score the service computes on a feature mapping
(with a sink that always succeeds). -/
def drift_score_value (features : List (String × ℚ)) : ℚ :=
  match calculate_drift_score pureSink features with
  | .ok r => r.1
  | .error _ => 0

/-- The feature dictionary built by `predict` (`model_serving.py` lines
209-221): `Time`, `V1 … V28`, `Amount`, in that order. -/
def featuresList (transaction : TransactionData) : List (String × ℚ) :=
  [("Time", transaction.Time),
   ("V1", transaction.V1), ("V2", transaction.V2), ("V3", transaction.V3),
   ("V4", transaction.V4), ("V5", transaction.V5), ("V6", transaction.V6),
   ("V7", transaction.V7), ("V8", transaction.V8), ("V9", transaction.V9),
   ("V10", transaction.V10), ("V11", transaction.V11), ("V12", transaction.V12),
   ("V13", transaction.V13), ("V14", transaction.V14), ("V15", transaction.V15),
   ("V16", transaction.V16), ("V17", transaction.V17), ("V18", transaction.V18),
   ("V19", transaction.V19), ("V20", transaction.V20), ("V21", transaction.V21),
   ("V22", transaction.V22), ("V23", transaction.V23), ("V24", transaction.V24),
   ("V25", transaction.V25), ("V26", transaction.V26), ("V27", transaction.V27),
   ("V28", transaction.V28), ("Amount", transaction.Amount)]

/-- The explicit column order of `predict` (`model_serving.py` lines
234-237). -/
def column_order : List String :=
  ["Time", "V1", "V2", "V3", "V4", "V5", "V6", "V7", "V8", "V9",
   "V10", "V11", "V12", "V13", "V14", "V15", "V16", "V17", "V18",
   "V19", "V20", "V21", "V22", "V23", "V24", "V25", "V26", "V27",
   "V28", "Amount"]

/-- The fitted scaler artifact: `SCALER.transform` on the `(Time, Amount)`
pair, as used at `model_serving.py` lines 228-231. -/
def Scaler : Type := ℚ → ℚ → ℚ × ℚ

/-- The loaded classifier artifact: `MODEL.predict(...)[0]` and
`MODEL.predict_proba(...)[0][1]` on the ordered feature vector. -/
structure Classifier where
  predictLabel : List ℚ → ℤ
  predictProba : List ℚ → ℚ

/-- The module-level serving state (`model_serving.py` lines 62-64). -/
structure ServerState where
  MODEL : Option Classifier
  SCALER : Option Scaler
  MODEL_VERSION : String

/-- A FastAPI `HTTPException`: status code and detail. -/
structure HTTPException where
  status_code : ℕ
  detail : String

/-- The `PredictionResponse` model (`model_serving.py` lines 104-113),
restricted to the fields the pipeline computes. -/
structure PredictionResponse where
  prediction : ℤ
  probability : ℚ
  risk_level : String
  message : String
  model_version : String
  transaction_id : String
  drift_detected : Bool
  processing_time_ms : ℚ

/-- The scaling step of `predict` (`model_serving.py` lines 226-239):
copy the feature frame, overwrite `Time` and `Amount` with the scaler's
two outputs, then select the columns in `column_order`. -/
def scaled_features (SCALER : Scaler) (transaction : TransactionData) :
    List (String × ℚ) :=
  let features := featuresList transaction
  let time_amount_scaled := SCALER transaction.Time transaction.Amount
  let df_scaled := features.map fun kv =>
    if kv.1 = "Time" then (kv.1, time_amount_scaled.1)
    else if kv.1 = "Amount" then (kv.1, time_amount_scaled.2)
    else kv
  column_order.map fun c => (c, (df_scaled.lookup c).getD 0)

/-- The `POST /predict` handler (`model_serving.py` lines 185-293) on an
already-parsed transaction.  Environment inputs that the handler reads are
passed explicitly: the metrics sink, the A/B draw `random.random() < 0.8`,
the hash-derived transaction id, and the measured processing time.  The
returned boolean records whether the classifier was invoked. -/
def predict (st : ServerState) (transaction : TransactionData) (sink : Sink)
    (rand_lt_08 : Bool) (transaction_id : String) (processing_time_ms : ℚ) :
    Except HTTPException PredictionResponse × Bool :=
  match st.MODEL, st.SCALER with
  | some MODEL, some SCALER =>
    match calculate_drift_score sink (featuresList transaction) with
    | .error _ => (.error ⟨400, "Prediction failed"⟩, false)
    | .ok (_drift_score, drift_detected) =>
      let df_scaled := scaled_features SCALER transaction
      let model_version := if rand_lt_08 then "v1.0" else "v1.1-beta"
      let vec := df_scaled.map Prod.snd
      let prediction := MODEL.predictLabel vec
      let probability := MODEL.predictProba vec
      let risk_level := risk_level_of probability
      (.ok { prediction := prediction
             probability := probability
             risk_level := risk_level
             message := if prediction = 1 then "Fraud detected!"
               else "Transaction seems legitimate"
             model_version := model_version
             transaction_id := transaction_id
             drift_detected := drift_detected
             processing_time_ms := processing_time_ms }, true)
  | _, _ => (.error ⟨503, "Model not loaded"⟩, false)

/-- The startup hook `load_models` (`model_serving.py` lines 115-131):
assign `MODEL`, then `SCALER`, then set `MODEL_VERSION`; any load failure
is re-raised, leaving the assignments made so far in place. -/
def load_models (load_model : Except String Classifier)
    (load_scaler : Except String Scaler) (st : ServerState) :
    ServerState × Except String Unit :=
  match load_model with
  | .error e => (st, .error e)
  | .ok m =>
    let st1 := { st with MODEL := some m }
    match load_scaler with
    | .error e => (st1, .error e)
    | .ok s => ({ st1 with SCALER := some s, MODEL_VERSION := "v1.0" }, .ok ())

/-- A JSON value submitted for a field: numeric or not. -/
inductive JsonValue where
  | num (q : ℚ)
  | other

/-- Whether a JSON value is numeric. -/
def JsonValue.isNum : JsonValue → Bool
  | .num _ => true
  | .other => false

/-- The 30 required fields of the pydantic `TransactionData` model
(`model_serving.py` lines 71-102), in declaration order — the same list as
`column_order`. -/
def required_fields : List String := column_order

/-- First value bound to a field, when present and numeric. -/
def getNum (data : List (String × JsonValue)) (f : String) : Option ℚ :=
  match data.lookup f with
  | some (.num q) => some q
  | _ => none

/-- The required fields a submitted mapping is missing or binds to a
non-numeric value. -/
def problem_fields (data : List (String × JsonValue)) : List String :=
  required_fields.filter fun f => (getNum data f).isNone

/-- First value bound to a field, defaulting to `0`; the default is never
used on a mapping that passed validation. -/
def getNumD (data : List (String × JsonValue)) (f : String) : ℚ :=
  (getNum data f).getD 0

/-- The record assembled from a mapping's required fields, in declaration
order `Time`, `V1 … V28`, `Amount`. -/
def buildTransaction (data : List (String × JsonValue)) : TransactionData :=
  ⟨getNumD data "Time",
   getNumD data "V1", getNumD data "V2", getNumD data "V3",
   getNumD data "V4", getNumD data "V5", getNumD data "V6",
   getNumD data "V7", getNumD data "V8", getNumD data "V9",
   getNumD data "V10", getNumD data "V11", getNumD data "V12",
   getNumD data "V13", getNumD data "V14", getNumD data "V15",
   getNumD data "V16", getNumD data "V17", getNumD data "V18",
   getNumD data "V19", getNumD data "V20", getNumD data "V21",
   getNumD data "V22", getNumD data "V23", getNumD data "V24",
   getNumD data "V25", getNumD data "V26", getNumD data "V27",
   getNumD data "V28", getNumD data "Amount"⟩

/-- Pydantic validation of a submitted mapping against `TransactionData`:
fail with the list of problem fields, or build the record; unknown extra
fields are ignored (pydantic's default). -/
def parseTransaction (data : List (String × JsonValue)) :
    Except (List String) TransactionData :=
  if (problem_fields data).isEmpty then .ok (buildTransaction data)
  else .error (problem_fields data)

/-- `validate_transaction_data` (`utils.py` lines 42-65): all 30 required
features present, every value numeric, and `Amount ≥ 0`.  This validator
exists in the repository (with its own tests) but is never called by the
serving path. -/
def validate_transaction_data (data : List (String × JsonValue)) : Bool :=
  ((["Time", "Amount"] ++ (List.range 28).map
      (fun i => "V" ++ toString (i + 1))).all fun f => (data.lookup f).isSome) &&
  (data.all fun kv => kv.2.isNum) &&
  (match data.lookup "Amount" with
   | some (.num q) => decide (0 ≤ q)
   | _ => false)

/-- The all-zero transaction record. -/
def zeroTransaction : TransactionData :=
  ⟨0, 0, 0, 0, 0, 0, 0, 0, 0, 0, 0, 0, 0, 0, 0,
   0, 0, 0, 0, 0, 0, 0, 0, 0, 0, 0, 0, 0, 0, 0⟩

/-- A concrete classifier used to instantiate theorems. -/
def constClassifier : Classifier where
  predictLabel := fun _ => 0
  predictProba := fun _ => 0.02

/-- A concrete scaler used to instantiate theorems. -/
def idScaler : Scaler := fun t a => (t, a)

/-- A fully loaded serving state. -/
def readyState : ServerState where
  MODEL := some constClassifier
  SCALER := some idScaler
  MODEL_VERSION := "v1.0"

/-- The serving state before any artifact is loaded
(`model_serving.py` lines 62-64). -/
def initialState : ServerState where
  MODEL := none
  SCALER := none
  MODEL_VERSION := "v1"

/-- The JSON body of end-to-end scenario B: every field `0`, except
`Amount = -5.0`. -/
def negAmountJson : List (String × JsonValue) :=
  required_fields.map fun f =>
    (f, JsonValue.num (if f = "Amount" then -5 else 0))

/-- Claim C1: on `[0,1]` the risk bucketer returns `Low` for `p < 0.3`,
`Medium` for `0.3 ≤ p < 0.7`, `High` for `p ≥ 0.7`; in particular `0.3`
maps to `Medium` and `0.7` to `High`, never to the lower bucket, so the
three buckets partition `[0,1]`: every probability gets exactly one of the
three labels. -/
theorem risk_bucketer_partition (p : ℚ) (h0 : 0 ≤ p) (h1 : p ≤ 1) :
    (p < 0.3 → risk_level_of p = "Low") ∧
    (0.3 ≤ p → p < 0.7 → risk_level_of p = "Medium") ∧
    (0.7 ≤ p → risk_level_of p = "High") ∧
    risk_level_of 0.3 = "Medium" ∧
    risk_level_of 0.7 = "High" ∧
    (risk_level_of p = "Low" ∨ risk_level_of p = "Medium" ∨
      risk_level_of p = "High") := by
  unfold risk_level_of
  refine ⟨?_, ?_, ?_, by norm_num, by norm_num, ?_⟩
  · intro h; simp [h]
  · intro h h7
    rw [if_neg (by linarith), if_pos h7]
  · intro h
    rw [if_neg (by linarith), if_neg (by linarith)]
  · split_ifs <;> simp

/-- Witness for C1 at `p = 3/10`. -/
theorem risk_bucketer_partition_witness :
    (0 : ℚ) ≤ 3/10 ∧ (3/10 : ℚ) ≤ 1 ∧ risk_level_of (3/10) = "Medium" := by
  have h := risk_bucketer_partition (3/10) (by norm_num) (by norm_num)
  exact ⟨by norm_num, by norm_num, h.2.1 (by norm_num) (by norm_num)⟩

/-- Association-list lookup only returns stored bindings. -/
theorem lookup_mem {α β : Type} [BEq α] [LawfulBEq α] :
    ∀ {l : List (α × β)} {a : α} {b : β}, l.lookup a = some b → (a, b) ∈ l := by
  intro l
  induction l with
  | nil => intro a b h; simp [List.lookup] at h
  | cons p rest ih =>
    intro a b h
    obtain ⟨k, c⟩ := p
    rw [List.lookup_cons] at h
    cases hak : a == k with
    | true =>
      rw [hak] at h
      obtain rfl : c = b := by simpa using h
      exact (eq_of_beq hak) ▸ List.mem_cons_self _ _
    | false =>
      rw [hak] at h
      exact List.mem_cons_of_mem _ (ih h)

/-- Every baseline entry has `std + ε > 0`. -/
theorem baseline_std_add_eps_pos :
    ∀ p ∈ FEATURE_BASELINE, (0 : ℚ) < p.2.2 + eps := by
  intro p hp
  rw [FEATURE_BASELINE] at hp
  simp only [List.mem_append, List.mem_map, List.mem_cons, List.mem_range,
    List.not_mem_nil, or_false] at hp
  rcases hp with (rfl | rfl) | ⟨i, _, rfl⟩ <;> norm_num [eps]

/-- For a field with a baseline entry, the code's
`abs((value - mean) / (std + eps))` equals the spec's
`|value - mean| / (std + eps)`. -/
theorem z_score_abs {feature : String} {m s : ℚ}
    (hb : FEATURE_BASELINE.lookup feature = some (m, s)) (v : ℚ) :
    |(v - m) / (s + eps)| = |v - m| / (s + eps) := by
  have hpos : (0 : ℚ) < s + eps :=
    baseline_std_add_eps_pos (feature, m, s) (lookup_mem hb)
  rw [abs_div, abs_of_pos hpos]

/-- The drift loop, run with a sink that always succeeds, accumulates
exactly the spec-side z-scores. -/
theorem calculate_drift_score_loop_spec (sink : Sink)
    (hsink : ∀ f z, sink f z = .ok ()) (features : List (String × ℚ)) :
    ∀ acc : List ℚ,
      calculate_drift_score_loop sink features acc =
        .ok (acc ++ specZScores features) := by
  induction features with
  | nil => intro acc; simp [calculate_drift_score_loop, specZScores]
  | cons fv rest ih =>
    intro acc
    obtain ⟨feature, value⟩ := fv
    cases hb : FEATURE_BASELINE.lookup feature with
    | none =>
      rw [specZScores, List.filterMap_cons_none (by simp [hb])]
      simpa [calculate_drift_score_loop, hb] using ih acc
    | some baseline =>
      obtain ⟨m, s⟩ := baseline
      rw [specZScores,
        List.filterMap_cons_some (b := |value - m| / (s + eps)) (by simp [hb])]
      have hstep := ih (acc ++ [|(value - m) / (s + eps)|])
      rw [calculate_drift_score_loop, hb]
      simpa [hsink, z_score_abs hb, List.append_assoc, specZScores] using hstep

/-- With a sink that always succeeds, `calculate_drift_score` returns the
spec-side mean and the strict `> 3` flag. -/
theorem calculate_drift_score_spec (sink : Sink)
    (hsink : ∀ f z, sink f z = .ok ()) (features : List (String × ℚ)) :
    calculate_drift_score sink features =
      .ok (specDrift features, decide (3 < specDrift features)) := by
  rw [calculate_drift_score, calculate_drift_score_loop_spec sink hsink features []]
  rcases h : specZScores features with _ | ⟨z, zs⟩ <;>
    simp [specDrift, h] <;> norm_num

/-- The service-computed aggregate equals the spec-side mean. -/
theorem drift_score_value_eq (features : List (String × ℚ)) :
    drift_score_value features = specDrift features := by
  rw [drift_score_value, calculate_drift_score_spec pureSink (fun _ _ => rfl)]

/-- Claim C4: the drift scorer computes, for each field shared with the
baseline, `z = |value - mean| / (std + 1e-7)`, returns the arithmetic mean
of these z-scores (`0.0` when no field is shared), and flags drift exactly
when the mean is strictly greater than `3.0` — a mean of exactly `3.0`
does not flag. -/
theorem drift_scorer_correct (sink : Sink) (features : List (String × ℚ))
    (hsink : ∀ f z, sink f z = .ok ()) :
    calculate_drift_score sink features =
      .ok (specDrift features, decide (3 < specDrift features)) ∧
    (specZScores features = [] → specDrift features = 0) ∧
    (∀ score flag, calculate_drift_score sink features = .ok (score, flag) →
      (flag = true ↔ 3 < score)) := by
  have h := calculate_drift_score_spec sink hsink features
  refine ⟨h, fun he => by simp [specDrift, he], fun score flag hsf => ?_⟩
  rw [h] at hsf
  obtain ⟨rfl, rfl⟩ : specDrift features = score ∧
      decide (3 < specDrift features) = flag := by
    constructor <;> cases hsf <;> rfl
  simp

/-- The baseline entry for `V1`. -/
theorem lookup_V1 : FEATURE_BASELINE.lookup "V1" = some (0, 1) := by rfl

/-- Evaluation of the spec-side z-scores on a single `V1 = 2` reading. -/
theorem specZScores_V1_two : specZScores [("V1", 2)] = [2 / (1 + eps)] := by
  rw [specZScores]
  simp [lookup_V1]

/-- Evaluation of the spec-side mean on a single `V1 = 2` reading. -/
theorem specDrift_V1_two : specDrift [("V1", 2)] = 20000000 / 10000001 := by
  rw [specDrift, specZScores_V1_two]
  norm_num [eps]

/-- Witness for C4: a single `V1 = 2` reading gives mean
`2 / (1 + 1e-7) = 20000000/10000001` and no drift flag. -/
theorem drift_scorer_correct_witness :
    calculate_drift_score pureSink [("V1", 2)] =
      .ok (20000000 / 10000001, false) := by
  have h := (drift_scorer_correct pureSink [("V1", 2)] (fun _ _ => rfl)).1
  rw [h, specDrift_V1_two]
  norm_num

/-- The spec-side z-scores of a list with one designated field split
around that field's z-score. -/
theorem specZScores_split (pre post : List (String × ℚ)) (f : String)
    (v m s : ℚ) (hb : FEATURE_BASELINE.lookup f = some (m, s)) :
    specZScores (pre ++ (f, v) :: post) =
      specZScores pre ++ |v - m| / (s + eps) :: specZScores post := by
  rw [specZScores, List.filterMap_append,
    List.filterMap_cons_some (b := |v - m| / (s + eps)) (by simp [hb])]
  rfl

/-- Claim C5: holding every other field fixed, the aggregate drift score
strictly increases when a baseline field's absolute deviation from its
baseline mean increases. -/
theorem drift_score_strict_mono (pre post : List (String × ℚ)) (f : String)
    (v w m s : ℚ) (hb : FEATURE_BASELINE.lookup f = some (m, s))
    (hdev : |v - m| < |w - m|) :
    drift_score_value (pre ++ (f, v) :: post) <
      drift_score_value (pre ++ (f, w) :: post) := by
  have hpos : (0 : ℚ) < s + eps :=
    baseline_std_add_eps_pos (f, m, s) (lookup_mem hb)
  rw [drift_score_value_eq, drift_score_value_eq,
    specDrift, specDrift, specZScores_split pre post f v m s hb,
    specZScores_split pre post f w m s hb]
  have hz : |v - m| / (s + eps) < |w - m| / (s + eps) :=
    (div_lt_div_iff_of_pos_right hpos).mpr hdev
  have hne : ∀ x : ℚ,
      specZScores pre ++ x :: specZScores post ≠ [] := by simp
  rw [if_neg (hne _), if_neg (hne _)]
  have hlen : (0 : ℚ) <
      ((specZScores pre ++ |w - m| / (s + eps) :: specZScores post).length : ℚ) := by
    have : 0 < (specZScores pre ++ |w - m| / (s + eps) :: specZScores post).length := by
      simp
    exact_mod_cast this
  have hlen_eq :
      (specZScores pre ++ |v - m| / (s + eps) :: specZScores post).length =
      (specZScores pre ++ |w - m| / (s + eps) :: specZScores post).length := by
    simp
  rw [hlen_eq]
  apply (div_lt_div_iff_of_pos_right hlen).mpr
  simp only [List.sum_append, List.sum_cons]
  linarith

/-- Witness for C5: raising `Amount` from `100` to `1000` strictly raises
the drift score. -/
theorem drift_score_strict_mono_witness :
    FEATURE_BASELINE.lookup "Amount" = some (88.34, 250.12) ∧
    |(100 : ℚ) - 88.34| < |(1000 : ℚ) - 88.34| ∧
    drift_score_value [("Amount", 100)] < drift_score_value [("Amount", 1000)] :=
  ⟨by rfl, by rw [abs_of_nonneg, abs_of_nonneg] <;> norm_num,
    drift_score_strict_mono [] [] "Amount" 100 1000 88.34 250.12
      (by rfl) (by rw [abs_of_nonneg, abs_of_nonneg] <;> norm_num)⟩

/-- Claim C6: the scaler adapter's output is the input feature mapping
with exactly the `Time` and `Amount` fields replaced by the scaler's two
outputs — the 28 `V` fields unchanged — and its field order is exactly
`Time`, `V1 … V28` ascending, `Amount`. -/
theorem scaler_adapter_frame (SCALER : Scaler) (t : TransactionData) :
    scaled_features SCALER t =
      featuresList { t with Time := (SCALER t.Time t.Amount).1,
                            Amount := (SCALER t.Time t.Amount).2 } ∧
    (scaled_features SCALER t).map Prod.fst = column_order := by
  constructor <;> rfl

/-- A request against a state missing the model or the scaler is refused
with the 503 `ServiceUnavailable` error, without invoking the classifier. -/
theorem predict_not_loaded (st : ServerState)
    (h : st.MODEL = none ∨ st.SCALER = none) (transaction : TransactionData)
    (sink : Sink) (r : Bool) (tid : String) (ms : ℚ) :
    predict st transaction sink r tid ms =
      (.error ⟨503, "Model not loaded"⟩, false) := by
  rcases st with ⟨m, s, v⟩
  rcases h with h | h
  · cases h; rfl
  · cases h; cases m <;> rfl

/-- Claim C7: every prediction request issued before the startup load of
both classifier and scaler has completed receives the 503
`ServiceUnavailable` signal and never reaches the classifier. -/
theorem predict_unavailable_before_load (st : ServerState)
    (h : st.MODEL = none ∨ st.SCALER = none) (transaction : TransactionData)
    (sink : Sink) (r : Bool) (tid : String) (ms : ℚ) :
    (predict st transaction sink r tid ms).1 =
      .error ⟨503, "Model not loaded"⟩ ∧
    (predict st transaction sink r tid ms).2 = false := by
  rw [predict_not_loaded st h transaction sink r tid ms]
  exact ⟨rfl, rfl⟩

/-- Witness for C7 at the pristine startup state. -/
theorem predict_unavailable_before_load_witness :
    (predict initialState zeroTransaction pureSink true "tx" 0).1 =
      .error ⟨503, "Model not loaded"⟩ ∧
    (predict initialState zeroTransaction pureSink true "tx" 0).2 = false :=
  predict_unavailable_before_load initialState (Or.inl rfl) zeroTransaction
    pureSink true "tx" 0

/-- Counterexample to C8 as stated: when the classifier load succeeds and
the scaler load then fails, the failed startup does NOT leave the service
state unchanged — the classifier remains installed. -/
theorem load_models_not_atomic :
    (load_models (.ok constClassifier) (.error "scaler missing")
        initialState).2 = .error "scaler missing" ∧
    (load_models (.ok constClassifier) (.error "scaler missing")
        initialState).1.MODEL ≠ none := by
  constructor
  · rfl
  · intro h
    simp [load_models, initialState] at h

/-- Claim C8 (amended): a failed startup load is re-raised and never
installs the scaler: if the classifier load fails the state is fully
unchanged, and in every failure case a service started from the
uninitialized state still refuses every prediction request with the 503
`ServiceUnavailable` signal, never invoking the classifier.  (Loading is
not atomic: a scaler-load failure leaves the already-assigned classifier
installed.) -/
theorem load_models_failure_refuses (lm : Except String Classifier)
    (ls : Except String Scaler) (st : ServerState)
    (hfail : (∃ e, lm = .error e) ∨ (∃ e, ls = .error e))
    (hs : st.SCALER = none) :
    (∀ e, lm = .error e → (load_models lm ls st).1 = st) ∧
    (load_models lm ls st).1.SCALER = none ∧
    (∀ transaction sink r tid ms,
      predict (load_models lm ls st).1 transaction sink r tid ms =
        (.error ⟨503, "Model not loaded"⟩, false)) := by
  have hsc : (load_models lm ls st).1.SCALER = none := by
    rcases hfail with ⟨e, he⟩ | ⟨e, he⟩
    · cases he; exact hs
    · cases he
      cases lm with
      | error e2 => exact hs
      | ok m => exact hs
  refine ⟨fun e he => by cases he; rfl, hsc, fun transaction sink r tid ms => ?_⟩
  exact predict_not_loaded _ (Or.inr hsc) transaction sink r tid ms

/-- Witness for C8 (amended): model load succeeds, scaler load fails; a
request is still refused with 503. -/
theorem load_models_failure_refuses_witness :
    predict (load_models (.ok constClassifier) (.error "boom")
        initialState).1 zeroTransaction pureSink true "tx" 0 =
      (.error ⟨503, "Model not loaded"⟩, false) :=
  (load_models_failure_refuses (.ok constClassifier) (.error "boom")
    initialState (Or.inr ⟨"boom", rfl⟩) rfl).2.2 zeroTransaction pureSink
    true "tx" 0

/-- Counterexample to C3 as stated: in the Ready state, a failure while
publishing per-field drift metrics fails the whole request with a 400
error — no response with drift fields defaulting to `(0.0, false)` is
produced, and the classifier is never invoked. -/
theorem drift_failure_fails_request :
    (predict readyState zeroTransaction failingSink true "tx" 0).1 =
      .error ⟨400, "Prediction failed"⟩ ∧
    (predict readyState zeroTransaction failingSink true "tx" 0).2 = false := by
  exact ⟨rfl, rfl⟩

/-- Claim C3 (amended): in the Ready state, any failure raised while
computing the drift score or publishing per-field drift metrics propagates
to the handler's generic exception handler and fails the request with a
client-facing 400 `PredictionError`; the classifier is not invoked and no
response with default drift fields is produced. -/
theorem drift_failure_propagates (st : ServerState) (m : Classifier)
    (s : Scaler) (hm : st.MODEL = some m) (hs : st.SCALER = some s)
    (transaction : TransactionData) (sink : Sink) (r : Bool) (tid : String)
    (ms : ℚ)
    (hfail : ∃ e, calculate_drift_score sink (featuresList transaction) =
      .error e) :
    predict st transaction sink r tid ms =
      (.error ⟨400, "Prediction failed"⟩, false) := by
  rcases st with ⟨mo, so, v⟩
  cases hm; cases hs
  obtain ⟨e, he⟩ := hfail
  simp [predict, he]

/-- Witness for C3 (amended) with an always-failing metrics sink. -/
theorem drift_failure_propagates_witness :
    predict readyState zeroTransaction failingSink true "tx" 0 =
      (.error ⟨400, "Prediction failed"⟩, false) :=
  drift_failure_propagates readyState constClassifier idScaler rfl rfl
    zeroTransaction failingSink true "tx" 0 ⟨(), rfl⟩

/-- Claim C2 evidence: the serving path accepts a transaction with
`Amount = -5` — pydantic validation succeeds on scenario B's body and the
classifier IS invoked on it — even though the repository's own
`validate_transaction_data` (tested by `test_negative_amount_rejected`)
rejects the same record. -/
theorem negative_amount_reaches_classifier :
    parseTransaction negAmountJson = .ok (buildTransaction negAmountJson) ∧
    (buildTransaction negAmountJson).Amount = -5 ∧
    (predict readyState (buildTransaction negAmountJson) pureSink true
        "tx" 0).2 = true ∧
    validate_transaction_data negAmountJson = false := by
  refine ⟨rfl, rfl, rfl, rfl⟩

/-- All response fields except `model_version`. -/
def response_core (r : PredictionResponse) :
    ℤ × ℚ × String × String × String × Bool × ℚ :=
  (r.prediction, r.probability, r.risk_level, r.message, r.transaction_id,
   r.drift_detected, r.processing_time_ms)

/-- Claim C10: in the Ready state, the returned prediction, probability and
risk level (indeed every response field except `model_version`) are
independent of the random A/B version draw, as is whether the classifier
is invoked; only the `model_version` label (and the metrics labels derived
from it) depends on the draw. -/
theorem version_draw_independent (st : ServerState) (m : Classifier)
    (s : Scaler) (hm : st.MODEL = some m) (hs : st.SCALER = some s)
    (transaction : TransactionData) (sink : Sink) (tid : String) (ms : ℚ) :
    Except.map response_core (predict st transaction sink true tid ms).1 =
      Except.map response_core (predict st transaction sink false tid ms).1 ∧
    (predict st transaction sink true tid ms).2 =
      (predict st transaction sink false tid ms).2 := by
  rcases st with ⟨mo, so, v⟩
  cases hm; cases hs
  cases hdrift : calculate_drift_score sink (featuresList transaction) with
  | error e => simp [predict, hdrift]
  | ok p =>
    obtain ⟨score, flag⟩ := p
    simp only [predict, hdrift]
    exact ⟨by rfl, trivial⟩

/-- Witness for C10 at the concrete ready state. -/
theorem version_draw_independent_witness :
    Except.map response_core
        (predict readyState zeroTransaction pureSink true "tx" 0).1 =
      Except.map response_core
        (predict readyState zeroTransaction pureSink false "tx" 0).1 ∧
    (predict readyState zeroTransaction pureSink true "tx" 0).2 =
      (predict readyState zeroTransaction pureSink false "tx" 0).2 :=
  version_draw_independent readyState constClassifier idScaler rfl rfl
    zeroTransaction pureSink "tx" 0

/-- Appending an entry with a different key does not change lookup. -/
theorem lookup_append_ne {β : Type} (data : List (String × β)) (f name : String)
    (v : β) (hne : f ≠ name) :
    (data ++ [(name, v)]).lookup f = data.lookup f := by
  induction data with
  | nil =>
    simp only [List.nil_append, List.lookup_cons, List.lookup_nil]
    rw [show (f == name) = false from beq_eq_false_iff_ne.mpr hne]
  | cons p rest ih =>
    obtain ⟨k, c⟩ := p
    simp only [List.cons_append, List.lookup_cons]
    cases f == k <;> simp [ih]

/-- Appending an entry with a different key does not change `getNum`. -/
theorem getNum_append (data : List (String × JsonValue)) (f name : String)
    (v : JsonValue) (hne : f ≠ name) :
    getNum (data ++ [(name, v)]) f = getNum data f := by
  rw [getNum, getNum, lookup_append_ne data f name v hne]

/-- Claim C9: a submitted mapping missing any of the 30 required fields
(or binding it non-numerically) fails validation with a `SchemaError`
listing that field; a mapping binding all 30 required fields to numbers
validates successfully to the assembled record; and unknown extra fields
are ignored rather than rejected — appending one changes nothing. -/
theorem schema_validation (data : List (String × JsonValue)) :
    (∀ f, f ∈ required_fields → getNum data f = none →
      ∃ L, parseTransaction data = .error L ∧ f ∈ L) ∧
    ((∀ f ∈ required_fields, (getNum data f).isSome) →
      parseTransaction data = .ok (buildTransaction data)) ∧
    (∀ name v, name ∉ required_fields →
      parseTransaction (data ++ [(name, v)]) = parseTransaction data) := by
  refine ⟨?_, ?_, ?_⟩
  · intro f hf hn
    have hmem : f ∈ problem_fields data := by
      rw [problem_fields]
      exact List.mem_filter.mpr ⟨hf, by simp [hn]⟩
    have hne : (problem_fields data).isEmpty = false := by
      rcases h : problem_fields data with _ | ⟨a, l⟩
      · rw [h] at hmem; cases hmem
      · rfl
    refine ⟨problem_fields data, ?_, hmem⟩
    simp [parseTransaction, hne]
  · intro hall
    have hempty : problem_fields data = [] := by
      rw [problem_fields, List.filter_eq_nil_iff]
      intro f hf
      have := hall f hf
      simp only [Option.isNone_iff_eq_none, Bool.not_eq_true]
      intro hfalse
      rw [hfalse] at this
      cases this
    simp [parseTransaction, hempty]
  · intro name v hname
    have hget : ∀ f ∈ required_fields,
        getNum (data ++ [(name, v)]) f = getNum data f :=
      fun f hf => getNum_append data f name v (fun h => hname (h ▸ hf))
    have hp : problem_fields (data ++ [(name, v)]) = problem_fields data := by
      rw [problem_fields, problem_fields]
      exact List.filter_congr (fun f hf => by rw [hget f hf])
    have hb : buildTransaction (data ++ [(name, v)]) = buildTransaction data := by
      rw [buildTransaction, buildTransaction]
      congr 1
      all_goals
        rw [getNumD, getNumD, getNum_append data _ name v
          (fun h => hname (h ▸ (by decide)))]
    rw [parseTransaction, parseTransaction, hp, hb]

/-- Witness for C9: the empty mapping fails listing `Time`; scenario B's
30-field body validates; an appended unknown `Extra` field is ignored. -/
theorem schema_validation_witness :
    (∃ L, parseTransaction [] = .error L ∧ "Time" ∈ L) ∧
    parseTransaction negAmountJson = .ok (buildTransaction negAmountJson) ∧
    parseTransaction (negAmountJson ++ [("Extra", .num 1)]) =
      parseTransaction negAmountJson := by
  refine ⟨(schema_validation []).1 "Time" (by decide) rfl,
    (schema_validation negAmountJson).2.1 ?_,
    (schema_validation negAmountJson).2.2 "Extra" (.num 1) (by decide)⟩
  decide

end FraudDetection
